import Mathlib

/-!
Shallow embedding of `gitops/agents.py` (class `GitOperationsAgent`), a
GitPython-based repository automation agent, together with proofs of the
specified properties of its operations.

Modelling conventions:
* Python exceptions become the `PyExc` inductive; exception chaining
  (`raise ... from e`, and the implicit `__context__` set when an exception
  escapes an `except` block) is modelled by the `cause` field.
* The external VCS engine (GitPython primitives backed by git itself) is a
  record of functions `Engine`; each fallible primitive returns
  `Except String RepoState` where the `String` is the message of the
  `GitCommandError` it raises on failure.  A failed primitive is modelled as
  leaving the repository state unchanged (the caller keeps the pre-state).
* The on-disk repository is snapshotted as `RepoState`; the agent object is
  `GitOperationsAgent` with its `repo : Option RepoState` field (`None` when
  unbound, exactly as `self.repo` in the source).
* Every operation also returns the ordered list of VcsEngine primitive calls
  it performed (`List PrimCall`), so that "performs no VcsEngine calls" is a
  statement about the returned trace.
* Python truthiness tests (`if files:`, `destination or self.repo_path`,
  `branch_name or ...`) are modelled by the `pyTruthy...` / `pyOrStr`
  helpers: `None` and empty strings/lists are falsy.
-/

namespace Gitops

/-- Kinds of Python exceptions that appear in the control flow of
`agents.py`: the generic `Exception` wrappers it raises, and the
`GitCommandError` / `ValueError` / `TypeError` raised by GitPython. -/
inductive ExcKind where
  | exception
  | gitCommandError
  | valueError
  | typeError
deriving DecidableEq

/-- A Python exception: kind, message, and chained cause/context
(the exception attached by `raise ... from e`, or the active exception when
a new one is raised inside an `except` block). -/
inductive PyExc where
  | mk (kind : ExcKind) (msg : String) (cause : Option PyExc)

/-- Kind of an exception. -/
def PyExc.kind : PyExc → ExcKind
  | .mk k _ _ => k

/-- Message of an exception. -/
def PyExc.msg : PyExc → String
  | .mk _ m _ => m

/-- Chained cause/context of an exception. -/
def PyExc.cause : PyExc → Option PyExc
  | .mk _ _ c => c

/-- Decidable equality for `PyExc` (structural recursion over the nested
`Option PyExc` cause). -/
def PyExc.beq : PyExc → PyExc → Bool
  | .mk k1 m1 none, .mk k2 m2 none => decide (k1 = k2) && decide (m1 = m2)
  | .mk k1 m1 (some c1), .mk k2 m2 (some c2) =>
      decide (k1 = k2) && decide (m1 = m2) && PyExc.beq c1 c2
  | _, _ => false

theorem PyExc.beq_iff : ∀ e1 e2 : PyExc, PyExc.beq e1 e2 = true ↔ e1 = e2
  | .mk k1 m1 none, .mk k2 m2 none => by
      simp [PyExc.beq, and_assoc]
  | .mk k1 m1 none, .mk k2 m2 (some c2) => by
      simp [PyExc.beq]
  | .mk k1 m1 (some c1), .mk k2 m2 none => by
      simp [PyExc.beq]
  | .mk k1 m1 (some c1), .mk k2 m2 (some c2) => by
      simp [PyExc.beq, PyExc.beq_iff c1 c2, and_assoc]

instance : DecidableEq PyExc := fun e1 e2 =>
  decidable_of_iff (PyExc.beq e1 e2 = true) (PyExc.beq_iff e1 e2)

/-- Snapshot of the on-disk state of a bound repository, holding exactly the
observations `agents.py` makes through GitPython:
local branch names (`repo.heads`), whether HEAD is detached
(`repo.head.is_detached`), the active branch name (`repo.active_branch`,
meaningful only when not detached), remote names (`repo.remotes`), the dirty
flag (`repo.is_dirty()`), untracked files (`repo.untracked_files`),
unstaged modified files (`repo.index.diff(None)` paths) and staged files
(`repo.index.diff("HEAD")` paths). -/
structure RepoState where
  branches : List String
  headDetached : Bool
  activeBranch : String
  remotes : List String
  dirty : Bool
  untrackedFiles : List String
  modifiedFiles : List String
  stagedFiles : List String
deriving DecidableEq

/-- The agent object: `self.repo_path` and `self.repo` of
`GitOperationsAgent`; `repo = none` models `self.repo is None` (unbound). -/
structure GitOperationsAgent where
  repo_path : String
  repo : Option RepoState
deriving DecidableEq

/-- One primitive VcsEngine interaction performed by an operation.
Read-only primitives (branch/remote enumeration, HEAD inspection, status
reads) are logged as calls as well, since the spec counts them as VcsEngine
calls. -/
inductive PrimCall where
  | listBranches
  | readActiveBranch
  | checkout (branch : String)
  | createHead (name : String)
  | stagePaths (files : List String)
  | stageAll
  | commitIndex (message : String)
  | resolveRemote (name : String)
  | pushRefspec (remote : String) (refspec : String)
  | cloneFrom (url : String)
  | readDetached
  | readDirty
  | readUntracked
  | diffWorking
  | diffHead
  | listRemotes
deriving DecidableEq

/-- The external VCS engine: outcomes of the GitPython/git primitives the
agent invokes.  Fallible primitives return `Except String RepoState`; the
error `String` is the `GitCommandError` message.  `openRepo` (the `Repo(...)`
constructor) may raise an arbitrary exception, hence `Except PyExc`. -/
structure Engine where
  abspath : String → String
  gitDirExists : String → Bool
  openRepo : String → Except PyExc RepoState
  clone_from : String → String → Option String → Except String RepoState
  checkout : RepoState → String → Except String RepoState
  create_head : RepoState → String → Except String RepoState
  index_add : RepoState → List String → Except String RepoState
  add_all : RepoState → Except String RepoState
  index_commit : RepoState → String → Except String (String × RepoState)
  push : RepoState → String → String → Except String RepoState

/-- Python truthiness of an optional string: `None` and `""` are falsy. -/
def pyTruthyStr : Option String → Bool
  | none => false
  | some s => !s.isEmpty

/-- Python `a or b` for an optional string `a` and string `b`. -/
def pyOrStr (a : Option String) (b : String) : String :=
  match a with
  | some s => if s.isEmpty then b else s
  | none => b

/-- Python truthiness of an optional list: `None` and `[]` are falsy. -/
def pyTruthyList : Option (List String) → Bool
  | none => false
  | some l => !l.isEmpty

/-- The `Exception("No repository initialized")` raised by the unbound
guard of every operation. -/
def notBoundExc : PyExc := .mk .exception "No repository initialized" none

/-- A `GitCommandError` with the given message and no explicit cause. -/
def gitErr (msg : String) : PyExc := .mk .gitCommandError msg none

/-- The `raise Exception(f"<ctx>{str(e)}") from e` pattern: a generic
`Exception` whose message is the context string followed by the primitive
error message, with the `GitCommandError` attached as cause. -/
def wrap (ctx : String) (msg : String) : PyExc :=
  .mk .exception (ctx ++ msg) (some (gitErr msg))

/-- The `__init__` constructor: resolve the path (`repo_path or os.getcwd()`
then `os.path.abspath`); if a `.git` directory exists there, open the
repository (any failure is re-raised as
`Exception("Failed to initialize repository: ...")`), otherwise start
unbound. -/
def GitOperationsAgent.construct (eng : Engine) (repo_path : Option String)
    (cwd : String) : Except PyExc GitOperationsAgent :=
  let path := eng.abspath (pyOrStr repo_path cwd)
  if eng.gitDirExists path then
    match eng.openRepo path with
    | .ok st => .ok ⟨path, some st⟩
    | .error e =>
        .error (.mk .exception ("Failed to initialize repository: " ++ e.msg) (some e))
  else
    .ok ⟨path, none⟩

/-- `clone_repository(url, branch, destination)`: delegate to
`Repo.clone_from`; on success store and return the new handle; on
`GitCommandError` re-raise the wrapped exception, leaving `self.repo`
untouched (the assignment only happens after `clone_from` returns). -/
def clone_repository (eng : Engine) (a : GitOperationsAgent) (url : String)
    (branch : Option String) (destination : Option String) :
    Except PyExc RepoState × GitOperationsAgent × List PrimCall :=
  let clone_path := eng.abspath (pyOrStr destination a.repo_path)
  let branchArg : Option String := if pyTruthyStr branch then branch else none
  match eng.clone_from url clone_path branchArg with
  | .ok r => (.ok r, { a with repo := some r }, [.cloneFrom url])
  | .error msg =>
      (.error (wrap "Failed to clone repository: " msg), a, [.cloneFrom url])

/-- The candidate name `f"{base_name}-{counter}"` probed by
`create_unique_branch`. -/
def candidate (base_name : String) (counter : Nat) : String :=
  base_name ++ "-" ++ Nat.repr counter

/-- The collision-avoidance `while` loop of `create_unique_branch`
(lines 70-76), written with explicit fuel: at each step, if the current
candidate is taken, move on to `f"{base_name}-{counter}"` and increment the
counter.  `none` means the fuel ran out (shown below never to happen for
sufficient fuel). -/
def probeLoop (base_name : String) (existing_branches : List String) :
    Nat → Nat → String → Option String
  | 0, _, _ => none
  | fuel + 1, counter, current =>
    if current ∈ existing_branches then
      probeLoop base_name existing_branches fuel (counter + 1)
        (candidate base_name counter)
    else
      some current

/-- The unique name chosen by the probe loop, starting from the base name
with counter 1, run with fuel `|existing| + 1` (proved sufficient below; the
`getD` default is never used). -/
def pickUniqueName (base_name : String) (existing_branches : List String) :
    String :=
  (probeLoop base_name existing_branches (existing_branches.length + 1) 1
    base_name).getD base_name

/-- The `except GitCommandError` handler of `create_unique_branch`: attempt
`self.repo.git.checkout(current_branch)`; if that rollback checkout itself
raises, its `GitCommandError` propagates out of the handler (with the
primary failure attached as Python implicit exception context), and the
wrapped primary is never raised; if the rollback succeeds, raise
`Exception("Failed to create branch: ...") from e`. -/
def rollbackAndRaise (eng : Engine) (a : GitOperationsAgent) (st : RepoState)
    (current_branch : String) (primaryMsg : String) (calls : List PrimCall) :
    Except PyExc String × GitOperationsAgent × List PrimCall :=
  match eng.checkout st current_branch with
  | .ok strb =>
      (.error (wrap "Failed to create branch: " primaryMsg),
       { a with repo := some strb }, calls ++ [.checkout current_branch])
  | .error msg2 =>
      (.error (.mk .gitCommandError msg2 (some (gitErr primaryMsg))),
       { a with repo := some st }, calls ++ [.checkout current_branch])

/-- `create_unique_branch(base_name, from_branch)`: unbound guard; probe for
a unique name against `self.repo.heads`; remember `self.repo.active_branch`
(a `TypeError`, uncaught by `except GitCommandError`, when HEAD is
detached); checkout `from_branch`, create the new head, check it out; on any
`GitCommandError` run the rollback handler. -/
def create_unique_branch (eng : Engine) (a : GitOperationsAgent)
    (base_name : String) (from_branch : String) :
    Except PyExc String × GitOperationsAgent × List PrimCall :=
  match a.repo with
  | none => (.error notBoundExc, a, [])
  | some st =>
    let new_branch_name := pickUniqueName base_name st.branches
    if st.headDetached then
      (.error (.mk .typeError "HEAD is a detached symbolic reference" none), a,
       [.listBranches, .readActiveBranch])
    else
      let current_branch := st.activeBranch
      match eng.checkout st from_branch with
      | .error e1 =>
          rollbackAndRaise eng a st current_branch e1
            [.listBranches, .readActiveBranch, .checkout from_branch]
      | .ok st1 =>
        match eng.create_head st1 new_branch_name with
        | .error e1 =>
            rollbackAndRaise eng a st1 current_branch e1
              [.listBranches, .readActiveBranch, .checkout from_branch,
               .createHead new_branch_name]
        | .ok st2 =>
          match eng.checkout st2 new_branch_name with
          | .error e1 =>
              rollbackAndRaise eng a st2 current_branch e1
                [.listBranches, .readActiveBranch, .checkout from_branch,
                 .createHead new_branch_name, .checkout new_branch_name]
          | .ok st3 =>
              (.ok new_branch_name, { a with repo := some st3 },
               [.listBranches, .readActiveBranch, .checkout from_branch,
                .createHead new_branch_name, .checkout new_branch_name])

/-- The tail of `commit_changes` after staging: `self.repo.index.commit`
returning the new hexsha, with `GitCommandError` wrapped. -/
def finishCommit (eng : Engine) (a : GitOperationsAgent) (st : RepoState)
    (message : String) (calls : List PrimCall) :
    Except PyExc String × GitOperationsAgent × List PrimCall :=
  match eng.index_commit st message with
  | .error msg =>
      (.error (wrap "Failed to commit changes: " msg),
       { a with repo := some st }, calls ++ [.commitIndex message])
  | .ok (sha, st1) =>
      (.ok sha, { a with repo := some st1 }, calls ++ [.commitIndex message])

/-- `commit_changes(message, files)`: unbound guard; `if files:` (Python
truthiness, so `None` and `[]` both take the else branch) stage the listed
paths via `index.add`, else stage everything via `git add -A`; then commit
and return the hexsha; `GitCommandError` is wrapped. -/
def commit_changes (eng : Engine) (a : GitOperationsAgent) (message : String)
    (files : Option (List String)) :
    Except PyExc String × GitOperationsAgent × List PrimCall :=
  match a.repo with
  | none => (.error notBoundExc, a, [])
  | some st =>
    if pyTruthyList files then
      match eng.index_add st (files.getD []) with
      | .error msg =>
          (.error (wrap "Failed to commit changes: " msg), a,
           [.stagePaths (files.getD [])])
      | .ok st1 =>
          finishCommit eng a st1 message [.stagePaths (files.getD [])]
    else
      match eng.add_all st with
      | .error msg =>
          (.error (wrap "Failed to commit changes: " msg), a, [.stageAll])
      | .ok st1 => finishCommit eng a st1 message [.stageAll]

/-- The body of `push_branch` after the branch name is resolved:
`self.repo.remote(name=remote_name)` raises a `ValueError` (not a
`GitCommandError`, hence uncaught) when the remote is not configured;
otherwise push the `f"{branch_name}:{branch_name}"` refspec with upstream
configuration, wrapping `GitCommandError`. -/
def pushResolved (eng : Engine) (a : GitOperationsAgent) (st : RepoState)
    (bname : String) (remote_name : String) (calls : List PrimCall) :
    Except PyExc Bool × GitOperationsAgent × List PrimCall :=
  if remote_name ∈ st.remotes then
    match eng.push st remote_name (bname ++ ":" ++ bname) with
    | .ok st1 =>
        (.ok true, { a with repo := some st1 },
         calls ++ [.resolveRemote remote_name,
                   .pushRefspec remote_name (bname ++ ":" ++ bname)])
    | .error msg =>
        (.error (wrap "Failed to push branch: " msg), a,
         calls ++ [.resolveRemote remote_name,
                   .pushRefspec remote_name (bname ++ ":" ++ bname)])
  else
    (.error (.mk .valueError ("Remote named " ++ remote_name ++ " did not exist") none),
     a, calls ++ [.resolveRemote remote_name])

/-- `push_branch(branch_name, remote_name)`: unbound guard;
`branch_name = branch_name or self.repo.active_branch.name` (short-circuit:
`active_branch` is only read, and can only raise its detached-HEAD
`TypeError`, when `branch_name` is falsy); then resolve the remote and push. -/
def push_branch (eng : Engine) (a : GitOperationsAgent)
    (branch_name : Option String) (remote_name : String) :
    Except PyExc Bool × GitOperationsAgent × List PrimCall :=
  match a.repo with
  | none => (.error notBoundExc, a, [])
  | some st =>
    if pyTruthyStr branch_name then
      pushResolved eng a st (branch_name.getD "") remote_name []
    else if st.headDetached then
      (.error (.mk .typeError "HEAD is a detached symbolic reference" none), a,
       [.readActiveBranch])
    else
      pushResolved eng a st st.activeBranch remote_name [.readActiveBranch]

/-- The dictionary returned by `get_repository_status`. -/
structure RepoStatusDict where
  current_branch : String
  is_dirty : Bool
  untracked_files : List String
  modified_files : List String
  staged_files : List String
  remotes : List String
  branches : List String
deriving DecidableEq

/-- The ordered read-only VcsEngine interactions of `get_repository_status`
(the conditional expression reads `is_detached` first and `active_branch`
only when not detached). -/
def statusCalls (st : RepoState) : List PrimCall :=
  (.readDetached :: (if st.headDetached then [] else [.readActiveBranch])) ++
  [.readDirty, .readUntracked, .diffWorking, .diffHead, .listRemotes,
   .listBranches]

/-- `get_repository_status()`: unbound guard, then a read-only composite
query assembling the status dictionary from live repository state; the
current branch is `"DETACHED_HEAD"` when `repo.head.is_detached` and
`repo.active_branch.name` otherwise. -/
def get_repository_status (a : GitOperationsAgent) :
    Except PyExc RepoStatusDict × GitOperationsAgent × List PrimCall :=
  match a.repo with
  | none => (.error notBoundExc, a, [])
  | some st =>
    (.ok {
        current_branch :=
          if !st.headDetached then st.activeBranch else "DETACHED_HEAD"
        is_dirty := st.dirty
        untracked_files := st.untrackedFiles
        modified_files := st.modifiedFiles
        staged_files := st.stagedFiles
        remotes := st.remotes
        branches := st.branches },
     a, statusCalls st)

/-! Injectivity of the decimal rendering used by the probe candidates.
`Nat.repr` is evaluated back to the number it renders, so distinct counters
always yield distinct candidate names. -/

/-- Decimal value of a digit character. -/
def digitVal (c : Char) : Nat := c.toNat - 48

/-- Decimal value of a most-significant-first digit list. -/
def decList (l : List Char) : Nat :=
  l.foldl (fun a c => 10 * a + digitVal c) 0

theorem toDigitsCore_eq_append (b : Nat) :
    ∀ (fuel n : Nat) (ds : List Char),
      Nat.toDigitsCore b fuel n ds = Nat.toDigitsCore b fuel n [] ++ ds
  | 0, _, _ => by simp [Nat.toDigitsCore]
  | fuel + 1, n, ds => by
      simp only [Nat.toDigitsCore]
      by_cases h : n / b = 0
      · simp [h]
      · rw [if_neg h, if_neg h, toDigitsCore_eq_append b fuel (n / b) [Nat.digitChar (n % b)],
          toDigitsCore_eq_append b fuel (n / b) (Nat.digitChar (n % b) :: ds)]
        simp

theorem digitVal_digitChar (d : Nat) (h : d < 10) :
    digitVal (Nat.digitChar d) = d := by
  interval_cases d <;> rfl

theorem decList_append_singleton (l : List Char) (c : Char) :
    decList (l ++ [c]) = 10 * decList l + digitVal c := by
  simp [decList, List.foldl_append]

theorem decList_toDigitsCore :
    ∀ (fuel n : Nat), n < fuel →
      decList (Nat.toDigitsCore 10 fuel n []) = n
  | 0, _, h => absurd h (by omega)
  | fuel + 1, n, h => by
      simp only [Nat.toDigitsCore]
      by_cases h0 : n / 10 = 0
      · rw [if_pos h0]
        have h1 : digitVal (Nat.digitChar (n % 10)) = n % 10 :=
          digitVal_digitChar (n % 10) (by omega)
        simp only [decList, List.foldl]
        omega
      · rw [if_neg h0, toDigitsCore_eq_append, decList_append_singleton,
          decList_toDigitsCore fuel (n / 10) (by omega)]
        have h1 : digitVal (Nat.digitChar (n % 10)) = n % 10 :=
          digitVal_digitChar (n % 10) (by omega)
        omega

theorem repr_inj (m n : Nat) (h : Nat.repr m = Nat.repr n) : m = n := by
  have hd : Nat.toDigitsCore 10 (m + 1) m [] = Nat.toDigitsCore 10 (n + 1) n [] :=
    congrArg String.data h
  calc m = decList (Nat.toDigitsCore 10 (m + 1) m []) :=
        (decList_toDigitsCore (m + 1) m (by omega)).symm
    _ = decList (Nat.toDigitsCore 10 (n + 1) n []) := by rw [hd]
    _ = n := decList_toDigitsCore (n + 1) n (by omega)

theorem candidate_inj (base : String) : Function.Injective (candidate base) := by
  intro i j h
  have hd := congrArg String.data h
  simp only [candidate, String.data_append, List.append_assoc] at hd
  exact repr_inj i j (String.ext (List.append_cancel_left (List.append_cancel_left hd)))

theorem base_ne_candidate (base : String) (i : Nat) : base ≠ candidate base i := by
  intro h
  have hl := congrArg String.length h
  simp only [candidate, String.length_append] at hl
  have : (1 : Nat) ≤ String.length "-" := by decide
  omega

/-! Behaviour of the probe loop: the list of probed candidates, termination,
and the fact that the loop returns the first free candidate. -/

/-- The candidates examined by `probeLoop` (in order) when run with the given
fuel, counter and current candidate. -/
def probed (base_name : String) : Nat → Nat → String → List String
  | 0, _, _ => []
  | fuel + 1, counter, current =>
      current :: probed base_name fuel (counter + 1) (candidate base_name counter)

theorem probed_succ (base : String) :
    ∀ (fuel counter : Nat) (current : String),
      probed base (fuel + 1) counter current =
        current :: (List.range' counter fuel).map (candidate base)
  | 0, c, cur => by simp [probed]
  | fuel + 1, c, cur => by
      rw [probed, probed_succ base fuel (c + 1) (candidate base c),
        List.range'_succ c fuel 1]
      simp

theorem probed_nodup (base : String) (L : Nat) :
    (probed base (L + 1) 1 base).Nodup := by
  rw [probed_succ]
  refine List.nodup_cons.mpr ⟨?_, (List.nodup_range' 1 L).map (candidate_inj base)⟩
  intro hmem
  obtain ⟨k, _, hek⟩ := List.mem_map.mp hmem
  exact base_ne_candidate base k hek.symm

theorem probed_length (base : String) :
    ∀ (fuel counter : Nat) (current : String),
      (probed base fuel counter current).length = fuel
  | 0, _, _ => rfl
  | fuel + 1, c, cur => by
      rw [probed, List.length_cons, probed_length base fuel (c + 1) (candidate base c)]

theorem probed_exists_free (base : String) (B : List String) :
    ∃ x ∈ probed base (B.length + 1) 1 base, x ∉ B := by
  by_contra hall
  push_neg at hall
  have hsub : probed base (B.length + 1) 1 base ⊆ B := fun x hx => hall x hx
  have hle := ((probed_nodup base B.length).subperm hsub).length_le
  rw [probed_length] at hle
  omega

theorem probeLoop_not_mem (base : String) (B : List String) :
    ∀ (fuel counter : Nat) (current r : String),
      probeLoop base B fuel counter current = some r → r ∉ B
  | 0, _, _, _, h => by simp [probeLoop] at h
  | fuel + 1, c, cur, r, h => by
      rw [probeLoop] at h
      by_cases hm : cur ∈ B
      · rw [if_pos hm] at h
        exact probeLoop_not_mem base B fuel (c + 1) (candidate base c) r h
      · rw [if_neg hm] at h
        cases h
        exact hm

theorem probeLoop_isSome (base : String) (B : List String) :
    ∀ (fuel counter : Nat) (current : String),
      (∃ x ∈ probed base fuel counter current, x ∉ B) →
      (probeLoop base B fuel counter current).isSome = true
  | 0, _, _, h => by simp [probed] at h
  | fuel + 1, c, cur, h => by
      rw [probeLoop]
      by_cases hm : cur ∈ B
      · rw [if_pos hm]
        apply probeLoop_isSome base B fuel (c + 1) (candidate base c)
        obtain ⟨x, hx, hxB⟩ := h
        rw [probed] at hx
        rcases List.mem_cons.mp hx with rfl | hx
        · exact absurd hm hxB
        · exact ⟨x, hx, hxB⟩
      · rw [if_neg hm]; rfl

theorem probeLoop_first_free (base : String) (B : List String) :
    ∀ (fuel counter : Nat) (current r : String),
      probeLoop base B fuel counter current = some r →
      (current ∉ B ∧ r = current) ∨
      (current ∈ B ∧ ∃ k, counter ≤ k ∧ r = candidate base k ∧
        candidate base k ∉ B ∧
        ∀ j, counter ≤ j → j < k → candidate base j ∈ B)
  | 0, _, _, _, h => by simp [probeLoop] at h
  | fuel + 1, c, cur, r, h => by
      rw [probeLoop] at h
      by_cases hm : cur ∈ B
      · rw [if_pos hm] at h
        refine Or.inr ⟨hm, ?_⟩
        rcases probeLoop_first_free base B fuel (c + 1) (candidate base c) r h with
          ⟨hfree, rfl⟩ | ⟨hcin, k, hk, hrk, hkfree, hmin⟩
        · exact ⟨c, Nat.le_refl c, rfl, hfree, fun j h1 h2 => absurd (Nat.lt_of_lt_of_le h2 h1) (Nat.lt_irrefl j)⟩
        · refine ⟨k, by omega, hrk, hkfree, fun j h1 h2 => ?_⟩
          rcases Nat.eq_or_lt_of_le h1 with rfl | hlt
          · exact hcin
          · exact hmin j hlt h2
      · rw [if_neg hm] at h
        cases h
        exact Or.inl ⟨hm, rfl⟩

theorem pickUniqueName_probeLoop (base : String) (B : List String) :
    probeLoop base B (B.length + 1) 1 base = some (pickUniqueName base B) := by
  have hs := probeLoop_isSome base B (B.length + 1) 1 base (probed_exists_free base B)
  obtain ⟨r, hr⟩ := Option.isSome_iff_exists.mp hs
  rw [pickUniqueName, hr]
  rfl

theorem pickUniqueName_not_mem (base : String) (B : List String) :
    pickUniqueName base B ∉ B :=
  probeLoop_not_mem base B (B.length + 1) 1 base (pickUniqueName base B)
    (pickUniqueName_probeLoop base B)

theorem pickUniqueName_spec (base : String) (B : List String) :
    (base ∉ B → pickUniqueName base B = base) ∧
    (base ∈ B → ∃ k, 1 ≤ k ∧ pickUniqueName base B = candidate base k ∧
      candidate base k ∉ B ∧ ∀ j, 1 ≤ j → j < k → candidate base j ∈ B) := by
  have h := probeLoop_first_free base B (B.length + 1) 1 base
    (pickUniqueName base B) (pickUniqueName_probeLoop base B)
  constructor
  · intro hnot
    rcases h with ⟨_, hr⟩ | ⟨hmem, _⟩
    · exact hr
    · exact absurd hmem hnot
  · intro hmem
    rcases h with ⟨hnot, _⟩ | ⟨_, hk⟩
    · exact absurd hmem hnot
    · exact hk

/-! Concrete engines and repository states used to instantiate the theorems
below on closed inputs. -/

/-- Kind of the exception carried by a failed result (`none` on success). -/
def errKind {α : Type} : Except PyExc α → Option ExcKind
  | .error e => some e.kind
  | .ok _ => none

/-- A 40-character lowercase hexadecimal digest, git's commit-addressing
scheme. -/
def isSha40 (s : String) : Bool :=
  s.length == 40 && s.data.all (fun c => c.isDigit || (c ≥ 'a' && c ≤ 'f'))

/-- A fixed demonstration commit id. -/
def shaDemo : String := "0123456789abcdef0123456789abcdef01234567"

/-- A reference engine on which every primitive succeeds, with the standard
git state transitions: checkout moves HEAD to the named branch, create_head
appends the new branch, commit returns `shaDemo`, clone produces a
repository checked out on the requested branch (default `main`). -/
def okEngine : Engine where
  abspath := fun s => s
  gitDirExists := fun _ => false
  openRepo := fun _ => .error notBoundExc
  clone_from := fun _ _ br =>
    .ok { branches := [br.getD "main"], headDetached := false,
          activeBranch := br.getD "main", remotes := ["origin"], dirty := false,
          untrackedFiles := [], modifiedFiles := [], stagedFiles := [] }
  checkout := fun st b => .ok { st with activeBranch := b, headDetached := false }
  create_head := fun st n => .ok { st with branches := st.branches ++ [n] }
  index_add := fun st _ => .ok st
  add_all := fun st => .ok st
  index_commit := fun st _ => .ok (shaDemo, st)
  push := fun st _ _ => .ok st

/-- A repository with branches `main` and `dev`, checked out on `dev`, with
remote `origin`. -/
def repoDev : RepoState :=
  { branches := ["main", "dev"], headDetached := false, activeBranch := "dev",
    remotes := ["origin"], dirty := false, untrackedFiles := [],
    modifiedFiles := [], stagedFiles := [] }

/-- A bound agent holding `repoDev`. -/
def agentDev : GitOperationsAgent := { repo_path := "/work/repo", repo := some repoDev }

/-- A freshly constructed, unbound agent. -/
def agentUnbound : GitOperationsAgent := { repo_path := "/work/repo", repo := none }

/-- `repoDev` with a detached HEAD. -/
def repoDetached : RepoState := { repoDev with headDetached := true, activeBranch := "main" }

/-- A bound agent holding `repoDetached`. -/
def agentDetached : GitOperationsAgent := { repo_path := "/work/repo", repo := some repoDetached }

/-- An attached repository whose checked-out branch is literally named
`DETACHED_HEAD` (a legal git branch name). -/
def repoWeird : RepoState :=
  { repoDev with branches := ["DETACHED_HEAD"], activeBranch := "DETACHED_HEAD" }

/-- A bound agent holding `repoWeird`. -/
def agentWeird : GitOperationsAgent := { repo_path := "/work/repo", repo := some repoWeird }

/-- An engine on which `git checkout main` fails with message `boom` and
every other checkout succeeds. -/
def rbEngine : Engine :=
  { okEngine with
    checkout := fun st b =>
      if b = "main" then .error "boom"
      else .ok { st with activeBranch := b, headDetached := false } }

/-- An engine on which only `git checkout main` succeeds: checking out the
newly created branch fails, and so does the rollback checkout. -/
def maskEngine : Engine :=
  { okEngine with
    checkout := fun st b =>
      if b = "main" then .ok { st with activeBranch := b, headDetached := false }
      else .error ("cannot checkout " ++ b) }

/-- An engine whose clone primitive fails. -/
def cloneFailEngine : Engine :=
  { okEngine with clone_from := fun _ _ _ => .error "network unreachable" }

/-- An engine whose push primitive fails. -/
def pushFailEngine : Engine :=
  { okEngine with push := fun _ _ _ => .error "remote rejected" }

/-- The repository produced by `okEngine.clone_from` when branch `dev` is
requested. -/
def repoCloned : RepoState :=
  { branches := ["dev"], headDetached := false, activeBranch := "dev",
    remotes := ["origin"], dirty := false, untrackedFiles := [],
    modifiedFiles := [], stagedFiles := [] }

instance {ε α : Type} [DecidableEq ε] [DecidableEq α] : DecidableEq (Except ε α)
  | .ok a, .ok b =>
      if h : a = b then .isTrue (by rw [h])
      else .isFalse fun hc => h (Except.ok.inj hc)
  | .ok _, .error _ => .isFalse fun hc => Except.noConfusion hc
  | .error _, .ok _ => .isFalse fun hc => Except.noConfusion hc
  | .error e, .error f =>
      if h : e = f then .isTrue (by rw [h])
      else .isFalse fun hc => h (Except.error.inj hc)

/-- Reduction of the `except` handler when the rollback checkout succeeds. -/
theorem rollbackAndRaise_ok (eng : Engine) (a : GitOperationsAgent)
    (st : RepoState) (cur m : String) (calls : List PrimCall) (srb : RepoState)
    (hrb : eng.checkout st cur = .ok srb) :
    rollbackAndRaise eng a st cur m calls =
      (.error (wrap "Failed to create branch: " m), { a with repo := some srb },
       calls ++ [.checkout cur]) := by
  simp [rollbackAndRaise, hrb]

/-- Reduction of the `except` handler when the rollback checkout fails. -/
theorem rollbackAndRaise_err (eng : Engine) (a : GitOperationsAgent)
    (st : RepoState) (cur m : String) (calls : List PrimCall) (m2 : String)
    (hrb : eng.checkout st cur = .error m2) :
    rollbackAndRaise eng a st cur m calls =
      (.error (.mk .gitCommandError m2 (some (gitErr m))), { a with repo := some st },
       calls ++ [.checkout cur]) := by
  simp [rollbackAndRaise, hrb]

/-- A propagated rollback `GitCommandError` is never the wrapped primary. -/
theorem gitCommandError_ne_wrap (m m2 : String) (c : Option PyExc) :
    (Except.error (PyExc.mk .gitCommandError m2 c) : Except PyExc String) ≠
      .error (wrap "Failed to create branch: " m) := by
  simp [wrap]

/-- Reduction of `create_unique_branch` when the `from_branch` checkout
fails. -/
theorem create_unique_branch_fail1 (eng : Engine) (a : GitOperationsAgent)
    (st : RepoState) (base_name from_branch m : String)
    (hrepo : a.repo = some st) (hdet : st.headDetached = false)
    (hm : eng.checkout st from_branch = .error m) :
    create_unique_branch eng a base_name from_branch =
      rollbackAndRaise eng a st st.activeBranch m
        [.listBranches, .readActiveBranch, .checkout from_branch] := by
  simp [create_unique_branch, hrepo, hdet, hm]

/-- Reduction of `create_unique_branch` when the branch creation fails. -/
theorem create_unique_branch_fail2 (eng : Engine) (a : GitOperationsAgent)
    (st st1 : RepoState) (base_name from_branch m : String)
    (hrepo : a.repo = some st) (hdet : st.headDetached = false)
    (h1 : eng.checkout st from_branch = .ok st1)
    (hm : eng.create_head st1 (pickUniqueName base_name st.branches) = .error m) :
    create_unique_branch eng a base_name from_branch =
      rollbackAndRaise eng a st1 st.activeBranch m
        [.listBranches, .readActiveBranch, .checkout from_branch,
         .createHead (pickUniqueName base_name st.branches)] := by
  simp [create_unique_branch, hrepo, hdet, h1, hm]

/-- Reduction of `create_unique_branch` when the new-branch checkout
fails. -/
theorem create_unique_branch_fail3 (eng : Engine) (a : GitOperationsAgent)
    (st st1 st2 : RepoState) (base_name from_branch m : String)
    (hrepo : a.repo = some st) (hdet : st.headDetached = false)
    (h1 : eng.checkout st from_branch = .ok st1)
    (h2 : eng.create_head st1 (pickUniqueName base_name st.branches) = .ok st2)
    (hm : eng.checkout st2 (pickUniqueName base_name st.branches) = .error m) :
    create_unique_branch eng a base_name from_branch =
      rollbackAndRaise eng a st2 st.activeBranch m
        [.listBranches, .readActiveBranch, .checkout from_branch,
         .createHead (pickUniqueName base_name st.branches),
         .checkout (pickUniqueName base_name st.branches)] := by
  simp [create_unique_branch, hrepo, hdet, h1, h2, hm]

theorem rbEngine_checkout_sem : ∀ s b s', rbEngine.checkout s b = .ok s' →
    s'.activeBranch = b ∧ s'.headDetached = false := by
  intro s b s' h
  simp only [rbEngine] at h
  split at h
  · exact Except.noConfusion h
  · cases h; exact ⟨rfl, rfl⟩

theorem maskEngine_checkout_sem : ∀ s b s', maskEngine.checkout s b = .ok s' →
    s'.activeBranch = b ∧ s'.headDetached = false := by
  intro s b s' h
  simp only [maskEngine] at h
  split at h
  · cases h; exact ⟨rfl, rfl⟩
  · exact Except.noConfusion h

/-! Claim theorems. -/

/-- C1: on a bound agent, `create_unique_branch` (when its checkouts and the
branch creation succeed) returns the probe result: the base name itself when
it is not an existing local branch, and otherwise `base-k` for the smallest
positive `k` whose candidate is unused; the returned name is never a member
of the branch set probed, and repeating the call once the new branch exists
in the branch set returns a different name. -/
theorem create_unique_branch_unique_name (eng : Engine) (a : GitOperationsAgent)
    (st st1 st2 st3 : RepoState) (base_name from_branch : String)
    (hrepo : a.repo = some st) (hdet : st.headDetached = false)
    (h1 : eng.checkout st from_branch = .ok st1)
    (h2 : eng.create_head st1 (pickUniqueName base_name st.branches) = .ok st2)
    (h3 : eng.checkout st2 (pickUniqueName base_name st.branches) = .ok st3) :
    (create_unique_branch eng a base_name from_branch).1 =
      .ok (pickUniqueName base_name st.branches) ∧
    pickUniqueName base_name st.branches ∉ st.branches ∧
    (base_name ∉ st.branches → pickUniqueName base_name st.branches = base_name) ∧
    (base_name ∈ st.branches → ∃ k, 1 ≤ k ∧
      pickUniqueName base_name st.branches = candidate base_name k ∧
      candidate base_name k ∉ st.branches ∧
      ∀ j, 1 ≤ j → j < k → candidate base_name j ∈ st.branches) ∧
    (∀ B2 : List String, pickUniqueName base_name st.branches ∈ B2 →
      pickUniqueName base_name B2 ≠ pickUniqueName base_name st.branches) := by
  refine ⟨?_, pickUniqueName_not_mem base_name st.branches,
    (pickUniqueName_spec base_name st.branches).1,
    (pickUniqueName_spec base_name st.branches).2, ?_⟩
  · simp [create_unique_branch, hrepo, hdet, h1, h2, h3]
  · intro B2 hmem heq
    exact pickUniqueName_not_mem base_name B2 (heq ▸ hmem)

/-- Witness for C1: on `okEngine` and the `main`/`dev` repository, probing
for `main` yields `main-1`, which is not an existing branch, and re-probing
once `main-1` exists yields a different name (`main-2`). -/
theorem create_unique_branch_unique_name_witness :
    (create_unique_branch okEngine agentDev "main" "main").1 = .ok "main-1" ∧
    "main-1" ∉ repoDev.branches ∧
    pickUniqueName "main" ["main", "dev", "main-1"] ≠ "main-1" ∧
    pickUniqueName "main" ["main", "dev", "main-1"] = "main-2" := by
  have h := create_unique_branch_unique_name okEngine agentDev repoDev
    { repoDev with activeBranch := "main" }
    { repoDev with activeBranch := "main", branches := ["main", "dev", "main-1"] }
    { repoDev with activeBranch := "main-1", branches := ["main", "dev", "main-1"] }
    "main" "main" rfl rfl rfl rfl rfl
  refine ⟨h.1.trans (by rfl), ?_, ?_, by rfl⟩
  · exact h.2.1
  · exact h.2.2.2.2 ["main", "dev", "main-1"] (by decide)

/-- C7: passing an empty `files` list is Python-falsy, so `commit_changes`
behaves exactly as if `files` were omitted: the whole run (result, final
agent and primitive-call trace) coincides with the stage-all path. -/
theorem commit_changes_empty_eq_omitted (eng : Engine) (a : GitOperationsAgent)
    (message : String) :
    commit_changes eng a message (some []) = commit_changes eng a message none := by
  obtain ⟨p, r⟩ := a
  cases r <;> rfl

/-- C8: the probe candidates are pairwise distinct and distinct from the
base name, hence the probe loop of `create_unique_branch` terminates within
`|existing| + 1` iterations (fuel `existing.length + 1` always returns a
name), and the name found lies outside the existing branch set. -/
theorem probe_loop_terminates (base_name : String) (existing_branches : List String) :
    (∀ i j : Nat, candidate base_name i = candidate base_name j → i = j) ∧
    (∀ i : Nat, base_name ≠ candidate base_name i) ∧
    (probeLoop base_name existing_branches (existing_branches.length + 1) 1
      base_name).isSome = true ∧
    pickUniqueName base_name existing_branches ∉ existing_branches :=
  ⟨fun _ _ h => candidate_inj base_name h, base_ne_candidate base_name,
   probeLoop_isSome base_name existing_branches (existing_branches.length + 1) 1
     base_name (probed_exists_free base_name existing_branches),
   pickUniqueName_not_mem base_name existing_branches⟩

/-- Witness for C8 on a concrete branch set: distinct counters give
distinct candidates, the loop with fuel `length + 1` returns a name, and
the name probed for base `feature` against `[feature]` is free. -/
theorem probe_loop_terminates_witness :
    (candidate "feature" 1 = candidate "feature" 2 → (1 : Nat) = 2) ∧
    "feature" ≠ candidate "feature" 1 ∧
    (probeLoop "feature" ["feature"] 2 1 "feature").isSome = true ∧
    pickUniqueName "feature" ["feature"] ∉ ["feature"] :=
  have h := probe_loop_terminates "feature" ["feature"]
  ⟨h.1 1 2, h.2.1 1, h.2.2.1, h.2.2.2⟩

/-- C10: `get_repository_status` leaves the agent (bound handle and
repository state) unchanged, and a second call with no intervening mutation
returns exactly the same result (hence identical field values, also as
sets). -/
theorem status_idempotent (a : GitOperationsAgent) :
    (get_repository_status a).2.1 = a ∧
    (get_repository_status ((get_repository_status a).2.1)).1 =
      (get_repository_status a).1 ∧
    (get_repository_status ((get_repository_status a).2.1)).2.1 = a := by
  obtain ⟨p, r⟩ := a
  cases r <;> simp [get_repository_status]

/-- C3: an agent constructed at a path with no `.git` directory starts
unbound, and on it `create_unique_branch`, `commit_changes`, `push_branch`
and `get_repository_status` all fail with the `No repository initialized`
exception, leave the agent unchanged, and perform no VcsEngine calls (empty
call trace). -/
theorem unbound_guard (eng : Engine) (rp : Option String) (cwd : String)
    (a : GitOperationsAgent)
    (hng : eng.gitDirExists (eng.abspath (pyOrStr rp cwd)) = false)
    (hc : GitOperationsAgent.construct eng rp cwd = .ok a) :
    a.repo = none ∧
    (∀ base fb, create_unique_branch eng a base fb = (.error notBoundExc, a, [])) ∧
    (∀ msg files, commit_changes eng a msg files = (.error notBoundExc, a, [])) ∧
    (∀ bn rn, push_branch eng a bn rn = (.error notBoundExc, a, [])) ∧
    get_repository_status a = (.error notBoundExc, a, []) := by
  have ha : a.repo = none := by
    simp only [GitOperationsAgent.construct, hng, Bool.false_eq_true, if_false] at hc
    cases hc
    rfl
  exact ⟨ha,
    fun base fb => by simp [create_unique_branch, ha],
    fun msg files => by simp [commit_changes, ha],
    fun bn rn => by simp [push_branch, ha],
    by simp [get_repository_status, ha]⟩

/-- Witness for C3: the concrete unbound agent produced by constructing at a
path without VCS metadata; each operation returns the guard error with an
empty call trace. -/
theorem unbound_guard_witness :
    agentUnbound.repo = none ∧
    create_unique_branch okEngine agentUnbound "feature" "main" =
      (.error notBoundExc, agentUnbound, []) ∧
    commit_changes okEngine agentUnbound "msg" none =
      (.error notBoundExc, agentUnbound, []) ∧
    push_branch okEngine agentUnbound none "origin" =
      (.error notBoundExc, agentUnbound, []) ∧
    get_repository_status agentUnbound = (.error notBoundExc, agentUnbound, []) := by
  have h := unbound_guard okEngine (some "/work/repo") "/cwd" agentUnbound rfl rfl
  exact ⟨h.1, h.2.1 "feature" "main", h.2.2.1 "msg" none, h.2.2.2.1 none "origin",
    h.2.2.2.2⟩

/-- C2 (amended): when the `from_branch` checkout, the branch creation or
the new-branch checkout fails, `create_unique_branch` attempts exactly one
rollback checkout of the originally active branch; if that rollback
succeeds, the repository ends on the originally active branch and the
primary failure is surfaced wrapped (`Failed to create branch: ...` with
the primary as cause); if the rollback checkout itself fails, the
rollback's `GitCommandError` propagates instead — the primary failure is
replaced as the surfaced error and survives only as chained context. -/
theorem create_unique_branch_rollback (eng : Engine) (a : GitOperationsAgent)
    (st : RepoState) (base_name from_branch : String)
    (hrepo : a.repo = some st) (hdet : st.headDetached = false)
    (hco : ∀ s b s', eng.checkout s b = .ok s' →
      s'.activeBranch = b ∧ s'.headDetached = false) :
    (∀ m, eng.checkout st from_branch = .error m →
      (∀ srb, eng.checkout st st.activeBranch = .ok srb →
        (create_unique_branch eng a base_name from_branch).1 =
          .error (wrap "Failed to create branch: " m) ∧
        (create_unique_branch eng a base_name from_branch).2.1.repo = some srb ∧
        srb.activeBranch = st.activeBranch ∧ srb.headDetached = false) ∧
      (∀ m2, eng.checkout st st.activeBranch = .error m2 →
        (create_unique_branch eng a base_name from_branch).1 =
          .error (.mk .gitCommandError m2 (some (gitErr m))) ∧
        (create_unique_branch eng a base_name from_branch).1 ≠
          .error (wrap "Failed to create branch: " m))) ∧
    (∀ st1 m, eng.checkout st from_branch = .ok st1 →
      eng.create_head st1 (pickUniqueName base_name st.branches) = .error m →
      (∀ srb, eng.checkout st1 st.activeBranch = .ok srb →
        (create_unique_branch eng a base_name from_branch).1 =
          .error (wrap "Failed to create branch: " m) ∧
        (create_unique_branch eng a base_name from_branch).2.1.repo = some srb ∧
        srb.activeBranch = st.activeBranch ∧ srb.headDetached = false) ∧
      (∀ m2, eng.checkout st1 st.activeBranch = .error m2 →
        (create_unique_branch eng a base_name from_branch).1 =
          .error (.mk .gitCommandError m2 (some (gitErr m))) ∧
        (create_unique_branch eng a base_name from_branch).1 ≠
          .error (wrap "Failed to create branch: " m))) ∧
    (∀ st1 st2 m, eng.checkout st from_branch = .ok st1 →
      eng.create_head st1 (pickUniqueName base_name st.branches) = .ok st2 →
      eng.checkout st2 (pickUniqueName base_name st.branches) = .error m →
      (∀ srb, eng.checkout st2 st.activeBranch = .ok srb →
        (create_unique_branch eng a base_name from_branch).1 =
          .error (wrap "Failed to create branch: " m) ∧
        (create_unique_branch eng a base_name from_branch).2.1.repo = some srb ∧
        srb.activeBranch = st.activeBranch ∧ srb.headDetached = false) ∧
      (∀ m2, eng.checkout st2 st.activeBranch = .error m2 →
        (create_unique_branch eng a base_name from_branch).1 =
          .error (.mk .gitCommandError m2 (some (gitErr m))) ∧
        (create_unique_branch eng a base_name from_branch).1 ≠
          .error (wrap "Failed to create branch: " m))) := by
  refine ⟨fun m hm => ⟨fun srb hrb => ?_, fun m2 hm2 => ?_⟩,
    fun st1 m h1 hm => ⟨fun srb hrb => ?_, fun m2 hm2 => ?_⟩,
    fun st1 st2 m h1 h2 hm => ⟨fun srb hrb => ?_, fun m2 hm2 => ?_⟩⟩
  · rw [create_unique_branch_fail1 eng a st base_name from_branch m hrepo hdet hm,
      rollbackAndRaise_ok eng a st st.activeBranch m _ srb hrb]
    exact ⟨rfl, rfl, (hco st st.activeBranch srb hrb).1, (hco st st.activeBranch srb hrb).2⟩
  · rw [create_unique_branch_fail1 eng a st base_name from_branch m hrepo hdet hm,
      rollbackAndRaise_err eng a st st.activeBranch m _ m2 hm2]
    exact ⟨rfl, gitCommandError_ne_wrap m m2 (some (gitErr m))⟩
  · rw [create_unique_branch_fail2 eng a st st1 base_name from_branch m hrepo hdet h1 hm,
      rollbackAndRaise_ok eng a st1 st.activeBranch m _ srb hrb]
    exact ⟨rfl, rfl, (hco st1 st.activeBranch srb hrb).1, (hco st1 st.activeBranch srb hrb).2⟩
  · rw [create_unique_branch_fail2 eng a st st1 base_name from_branch m hrepo hdet h1 hm,
      rollbackAndRaise_err eng a st1 st.activeBranch m _ m2 hm2]
    exact ⟨rfl, gitCommandError_ne_wrap m m2 (some (gitErr m))⟩
  · rw [create_unique_branch_fail3 eng a st st1 st2 base_name from_branch m hrepo hdet
      h1 h2 hm, rollbackAndRaise_ok eng a st2 st.activeBranch m _ srb hrb]
    exact ⟨rfl, rfl, (hco st2 st.activeBranch srb hrb).1, (hco st2 st.activeBranch srb hrb).2⟩
  · rw [create_unique_branch_fail3 eng a st st1 st2 base_name from_branch m hrepo hdet
      h1 h2 hm, rollbackAndRaise_err eng a st2 st.activeBranch m _ m2 hm2]
    exact ⟨rfl, gitCommandError_ne_wrap m m2 (some (gitErr m))⟩

/-- Witness for C2 at a concrete input: on `rbEngine` the `main` checkout
fails with `boom`; the rollback checkout of `dev` succeeds, the repository
ends on `dev`, and the wrapped primary error is surfaced; on `maskEngine`
the new-branch checkout fails and the rollback also fails, and the surfaced
error is the rollback `GitCommandError`. -/
theorem create_unique_branch_rollback_witness :
    ((create_unique_branch rbEngine agentDev "feature" "main").1 =
      .error (wrap "Failed to create branch: " "boom") ∧
     (create_unique_branch rbEngine agentDev "feature" "main").2.1.repo =
      some repoDev ∧ repoDev.activeBranch = "dev") ∧
    ((create_unique_branch maskEngine agentDev "feature" "main").1 =
      .error (.mk .gitCommandError "cannot checkout dev"
        (some (gitErr "cannot checkout feature"))) ∧
     (create_unique_branch maskEngine agentDev "feature" "main").1 ≠
      .error (wrap "Failed to create branch: " "cannot checkout feature")) := by
  have hrb := ((create_unique_branch_rollback rbEngine agentDev repoDev "feature" "main"
    rfl rfl rbEngine_checkout_sem).1 "boom" rfl).1 repoDev rfl
  have hmask := ((create_unique_branch_rollback maskEngine agentDev repoDev "feature"
    "main" rfl rfl maskEngine_checkout_sem).2.2
    { repoDev with activeBranch := "main" }
    { repoDev with activeBranch := "main", branches := ["main", "dev", "feature"] }
    "cannot checkout feature" rfl rfl rfl).2 "cannot checkout dev" rfl
  exact ⟨⟨hrb.1, hrb.2.1, rfl⟩, hmask⟩

/-- Counterexample for C2 as stated: on `maskEngine` the new-branch checkout
fails (primary) and the rollback checkout of `dev` also fails; the surfaced
error is the rollback failure (a `GitCommandError` carrying the primary
only as chained context), not the wrapped primary, and the repository is
left on `main`, not on the originally active `dev`. -/
theorem rollback_failure_masks_primary_cex :
    (create_unique_branch maskEngine agentDev "feature" "main").1 =
      .error (.mk .gitCommandError "cannot checkout dev"
        (some (gitErr "cannot checkout feature"))) ∧
    (create_unique_branch maskEngine agentDev "feature" "main").1 ≠
      .error (wrap "Failed to create branch: " "cannot checkout feature") ∧
    ((create_unique_branch maskEngine agentDev "feature" "main").2.1.repo.getD
      repoDev).activeBranch = "main" ∧
    repoDev.activeBranch = "dev" := by
  refine ⟨rfl, by decide, rfl, rfl⟩

/-- C4 (amended): on a bound agent, pushing to a remote name that is not
configured raises the engine's native `ValueError` unwrapped (no cause
attached, not the wrapped `Failed to push branch` exception); when the
remote exists, a failing push primitive is caught at the call site and
re-raised wrapped with the original `GitCommandError` attached as cause,
and a successful push returns `true`. -/
theorem push_branch_error_wrapping (eng : Engine) (a : GitOperationsAgent)
    (st : RepoState) (bn : String) (remote_name : String)
    (hrepo : a.repo = some st) (hbn : bn.isEmpty = false) :
    (remote_name ∉ st.remotes →
      (push_branch eng a (some bn) remote_name).1 =
        .error (.mk .valueError ("Remote named " ++ remote_name ++ " did not exist")
          none) ∧
      errKind (push_branch eng a (some bn) remote_name).1 = some .valueError) ∧
    (∀ m, remote_name ∈ st.remotes →
      eng.push st remote_name (bn ++ ":" ++ bn) = .error m →
      (push_branch eng a (some bn) remote_name).1 =
        .error (wrap "Failed to push branch: " m) ∧
      (wrap "Failed to push branch: " m).cause = some (gitErr m)) ∧
    (∀ st', remote_name ∈ st.remotes →
      eng.push st remote_name (bn ++ ":" ++ bn) = .ok st' →
      (push_branch eng a (some bn) remote_name).1 = .ok true) := by
  refine ⟨fun hnm => ?_, fun m hmem hp => ?_, fun st' hmem hp => ?_⟩
  · constructor <;>
      simp [push_branch, pushResolved, pyTruthyStr, hbn, hrepo, hnm, errKind, PyExc.kind]
  · exact ⟨by simp [push_branch, pushResolved, pyTruthyStr, hbn, hrepo, hmem, hp], rfl⟩
  · simp [push_branch, pushResolved, pyTruthyStr, hbn, hrepo, hmem, hp]

/-- Witness for C4: pushing `dev` to the unknown remote `upstream` raises
the unwrapped `ValueError`; pushing to the configured `origin` with a
failing push primitive surfaces the wrapped error with cause; with
`okEngine` it returns `true`. -/
theorem push_branch_error_wrapping_witness :
    (push_branch okEngine agentDev (some "dev") "upstream").1 =
      .error (.mk .valueError "Remote named upstream did not exist" none) ∧
    (push_branch pushFailEngine agentDev (some "dev") "origin").1 =
      .error (wrap "Failed to push branch: " "remote rejected") ∧
    (wrap "Failed to push branch: " "remote rejected").cause =
      some (gitErr "remote rejected") ∧
    (push_branch okEngine agentDev (some "dev") "origin").1 = .ok true := by
  have h1 := (push_branch_error_wrapping okEngine agentDev repoDev "dev" "upstream"
    rfl rfl).1 (by decide)
  have h2 := (push_branch_error_wrapping pushFailEngine agentDev repoDev "dev" "origin"
    rfl rfl).2.1 "remote rejected" (by decide) rfl
  have h3 := (push_branch_error_wrapping okEngine agentDev repoDev "dev" "origin"
    rfl rfl).2.2 repoDev (by decide) rfl
  exact ⟨h1.1, h2.1, h2.2, h3⟩

/-- Counterexample for C4 as stated: pushing to an unknown remote raises a
`ValueError`, not the wrapped generic exception the spec calls
`VcsOperationError` (every wrapped error of this module has kind
`exception`), and the `ValueError` carries no cause. -/
theorem push_branch_unknown_remote_cex :
    (push_branch okEngine agentDev (some "dev") "upstream").1 =
      .error (.mk .valueError "Remote named upstream did not exist" none) ∧
    errKind (push_branch okEngine agentDev (some "dev") "upstream").1 =
      some .valueError ∧
    errKind (push_branch okEngine agentDev (some "dev") "upstream").1 ≠
      some .exception := by
  refine ⟨rfl, rfl, by decide⟩

/-- C5 (amended): on a bound agent, `commit_changes` with a nonempty `files`
list stages exactly the listed paths (the only staging call is
`stagePaths files`) before committing, and with `files` omitted stages all
working-tree changes (`stageAll`) before committing; on success it returns
exactly the identifier produced by the engine's commit primitive, which is
a fixed-length hex digest whenever the engine's commit ids are (a `files`
list that is empty is Python-falsy and takes the stage-all path, see the
counterexample). -/
theorem commit_changes_staging (eng : Engine) (a : GitOperationsAgent)
    (st : RepoState) (message : String)
    (hrepo : a.repo = some st)
    (hsha : ∀ s m r, eng.index_commit s m = .ok r → isSha40 r.1 = true) :
    (∀ fs st1 sha st2, fs ≠ [] →
      eng.index_add st fs = .ok st1 →
      eng.index_commit st1 message = .ok (sha, st2) →
      commit_changes eng a message (some fs) =
        (.ok sha, { a with repo := some st2 },
         [.stagePaths fs, .commitIndex message]) ∧
      isSha40 sha = true) ∧
    (∀ st1 sha st2,
      eng.add_all st = .ok st1 →
      eng.index_commit st1 message = .ok (sha, st2) →
      commit_changes eng a message none =
        (.ok sha, { a with repo := some st2 },
         [.stageAll, .commitIndex message]) ∧
      isSha40 sha = true) := by
  constructor
  · intro fs st1 sha st2 hfs hadd hcommit
    refine ⟨?_, hsha st1 message (sha, st2) hcommit⟩
    have hne : fs.isEmpty = false := by
      cases fs with
      | nil => exact absurd rfl hfs
      | cons x xs => rfl
    simp [commit_changes, finishCommit, hrepo, pyTruthyList, hne, hadd, hcommit]
  · intro st1 sha st2 hadd hcommit
    refine ⟨?_, hsha st1 message (sha, st2) hcommit⟩
    simp [commit_changes, finishCommit, hrepo, pyTruthyList, hadd, hcommit]

/-- Witness for C5: committing with `files = ["a.txt"]` stages exactly that
path and returns the engine's 40-hex commit id; committing with `files`
omitted stages everything. -/
theorem commit_changes_staging_witness :
    commit_changes okEngine agentDev "msg" (some ["a.txt"]) =
      (.ok shaDemo, agentDev, [.stagePaths ["a.txt"], .commitIndex "msg"]) ∧
    isSha40 shaDemo = true ∧
    commit_changes okEngine agentDev "msg" none =
      (.ok shaDemo, agentDev, [.stageAll, .commitIndex "msg"]) := by
  have hsha : ∀ s m r, okEngine.index_commit s m = .ok r → isSha40 r.1 = true := by
    intro s m r h
    cases h
    show isSha40 shaDemo = true
    decide
  have h := commit_changes_staging okEngine agentDev repoDev "msg" rfl hsha
  have h1 := h.1 ["a.txt"] repoDev shaDemo repoDev (by simp) rfl rfl
  have h2 := h.2 repoDev shaDemo repoDev rfl rfl
  exact ⟨h1.1, h1.2, h2.1⟩

/-- Counterexample for C5 as stated: with `files` given as the empty list,
`commit_changes` does not stage exactly those (zero) paths — it takes the
stage-all path and commits everything. -/
theorem commit_changes_empty_list_cex :
    commit_changes okEngine agentDev "msg" (some []) =
      (.ok shaDemo, agentDev, [.stageAll, .commitIndex "msg"]) ∧
    (commit_changes okEngine agentDev "msg" (some [])).2.2 ≠
      [.stagePaths [], .commitIndex "msg"] := by
  refine ⟨rfl, by decide⟩

/-- C6: `clone_repository` assigns `self.repo` only after the clone
primitive returns: on primitive failure the wrapped error is raised and the
agent (its binding in particular) is exactly as before the call; on success
the bound handle is replaced by the newly cloned repository, which is also
returned. -/
theorem clone_repository_binding (eng : Engine) (a : GitOperationsAgent)
    (url : String) (branch destination : Option String) :
    (∀ m, eng.clone_from url (eng.abspath (pyOrStr destination a.repo_path))
        (if pyTruthyStr branch then branch else none) = .error m →
      (clone_repository eng a url branch destination).1 =
        .error (wrap "Failed to clone repository: " m) ∧
      (clone_repository eng a url branch destination).2.1 = a) ∧
    (∀ r, eng.clone_from url (eng.abspath (pyOrStr destination a.repo_path))
        (if pyTruthyStr branch then branch else none) = .ok r →
      (clone_repository eng a url branch destination).1 = .ok r ∧
      (clone_repository eng a url branch destination).2.1 =
        { a with repo := some r }) := by
  constructor
  · intro m hm
    constructor <;> simp [clone_repository, hm]
  · intro r hr
    constructor <;> simp [clone_repository, hr]

/-- Witness for C6: a failed clone leaves both a bound and an unbound agent
exactly as they were; a successful clone of branch `dev` rebinds the agent
to the cloned repository and returns it. -/
theorem clone_repository_binding_witness :
    (clone_repository cloneFailEngine agentDev "https://example/repo.git" none none).1 =
      .error (wrap "Failed to clone repository: " "network unreachable") ∧
    (clone_repository cloneFailEngine agentDev "https://example/repo.git" none none).2.1 =
      agentDev ∧
    (clone_repository cloneFailEngine agentUnbound "https://example/repo.git" none none).2.1 =
      agentUnbound ∧
    (clone_repository okEngine agentUnbound "https://example/repo.git" (some "dev") none).1 =
      .ok repoCloned ∧
    (clone_repository okEngine agentUnbound "https://example/repo.git" (some "dev") none).2.1 =
      { agentUnbound with repo := some repoCloned } := by
  have h1 := (clone_repository_binding cloneFailEngine agentDev "https://example/repo.git"
    none none).1 "network unreachable" rfl
  have h2 := (clone_repository_binding cloneFailEngine agentUnbound "https://example/repo.git"
    none none).1 "network unreachable" rfl
  have h3 := (clone_repository_binding okEngine agentUnbound "https://example/repo.git"
    (some "dev") none).2 repoCloned rfl
  exact ⟨h1.1, h1.2, h2.2, h3.1, h3.2⟩

/-- C9 (amended): on a bound agent, the `current_branch` field of the
status is the sentinel string `DETACHED_HEAD` when HEAD is detached and the
active branch name otherwise; provided no checked-out branch is itself
named `DETACHED_HEAD`, the field equals the sentinel exactly when HEAD is
detached (the counterexample shows the unqualified `exactly when` fails for
a branch literally named `DETACHED_HEAD`). -/
theorem status_detached_sentinel (a : GitOperationsAgent) (st : RepoState)
    (hrepo : a.repo = some st) (hname : st.activeBranch ≠ "DETACHED_HEAD") :
    ∃ d, (get_repository_status a).1 = .ok d ∧
      ((d.current_branch = "DETACHED_HEAD") ↔ st.headDetached = true) ∧
      (st.headDetached = false → d.current_branch = st.activeBranch) := by
  refine ⟨{ current_branch := if !st.headDetached then st.activeBranch else "DETACHED_HEAD",
            is_dirty := st.dirty, untracked_files := st.untrackedFiles,
            modified_files := st.modifiedFiles, staged_files := st.stagedFiles,
            remotes := st.remotes, branches := st.branches }, ?_, ?_, ?_⟩
  · simp [get_repository_status, hrepo]
  · cases hdet : st.headDetached <;> simp [hdet, hname]
  · cases hdet : st.headDetached <;> simp [hdet, hname]

/-- Witness for C9 on concrete repositories: attached on `dev` the field is
`dev` (not the sentinel); with a detached HEAD the field is the sentinel. -/
theorem status_detached_sentinel_witness :
    (∃ d, (get_repository_status agentDev).1 = .ok d ∧
      ((d.current_branch = "DETACHED_HEAD") ↔ repoDev.headDetached = true) ∧
      (repoDev.headDetached = false → d.current_branch = repoDev.activeBranch)) ∧
    (∃ d, (get_repository_status agentDetached).1 = .ok d ∧
      ((d.current_branch = "DETACHED_HEAD") ↔ repoDetached.headDetached = true)) := by
  refine ⟨status_detached_sentinel agentDev repoDev rfl (by decide), ?_⟩
  obtain ⟨d, hg, hiff, _⟩ := status_detached_sentinel agentDetached repoDetached rfl
    (by decide)
  exact ⟨d, hg, hiff⟩

/-- Counterexample for C9 as stated: with an attached HEAD on a branch
literally named `DETACHED_HEAD`, the `current_branch` field equals the
sentinel string even though HEAD does point at a named branch tip, so the
field is the sentinel without HEAD being detached. -/
theorem status_sentinel_collision_cex :
    repoWeird.headDetached = false ∧
    (get_repository_status agentWeird).1 =
      .ok { current_branch := "DETACHED_HEAD", is_dirty := false,
            untracked_files := [], modified_files := [], staged_files := [],
            remotes := ["origin"], branches := ["DETACHED_HEAD"] } :=
  ⟨rfl, rfl⟩

end Gitops
